import Mathlib

/-!
Shallow embedding of the gravitational N-body simulation in `src/main.cpp`.

The C++ program stores for each body a 2-D position in simulation space,
a 2-D velocity in m/s, a display radius, a mass and a real (physical)
radius.  Each frame of the main loop processes the bodies in order: for
body `i` it accumulates gravitational acceleration from every other body
(skipping pairs closer than the sum of their physical radii), then calls
`updatePosition()`, then clamps the body to the screen boundary with
velocity reflection, then runs `CheckCollision` against every other body.

Floating-point (`float`) arithmetic is modelled by exact real arithmetic;
`std::sqrt` by `Real.sqrt`.  The global scale constants `TIME_SCALE` and
`SPACE_SCALE` are threaded as explicit parameters `ts`, `ss` and
instantiated below with the program's values.
-/

noncomputable section

namespace PhysicsSim

/-- The `Object` class of `src/main.cpp` (lines 18-34): position in
simulation space, velocity in m/s, display radius, mass in kg, and real
radius in meters. -/
structure Object where
  position : ℝ × ℝ
  velocity : ℝ × ℝ
  radius : ℝ
  mass : ℝ
  realRadius : ℝ

/-- Placeholder body used as the out-of-range default of list indexing;
every access in the development is in range. -/
def defaultObject : Object := ⟨(0, 0), (0, 0), 0, 0, 0⟩

/-- `SPACE_SCALE` global of `main.cpp` line 13. -/
def SPACE_SCALE : ℝ := 1e-9

/-- `TIME_SCALE` global of `main.cpp` line 14. -/
def TIME_SCALE : ℝ := 50000

/-- Gravitational constant `G` of `main.cpp` line 106. -/
def G : ℝ := 6.674e-11

/-- `Object::accelerate` (lines 36-40): adds `x * TIME_SCALE` and
`y * TIME_SCALE` to the velocity components. -/
def accelerate (ts : ℝ) (o : Object) (x y : ℝ) : Object :=
  { o with velocity := (o.velocity.1 + x * ts, o.velocity.2 + y * ts) }

/-- `Object::updatePosition` (lines 42-47): adds
`velocity * TIME_SCALE * SPACE_SCALE` to each position component. -/
def updatePosition (ts ss : ℝ) (o : Object) : Object :=
  { o with position := (o.position.1 + o.velocity.1 * ts * ss,
                        o.position.2 + o.velocity.2 * ts * ss) }

/-- Component-wise negation of a body's velocity, the collision response
applied to each participant in `Object::CheckCollision` (lines 57-60). -/
def negVel (o : Object) : Object :=
  { o with velocity := (-o.velocity.1, -o.velocity.2) }

/-- Simulation-space distance between two bodies:
`sqrt(dx*dx + dy*dy)` with `dx, dy` pointing from `a` to `b`; this is
the expression computed locally both in `Object::CheckCollision`
(lines 50-52) and in the force loop (lines 133-135). -/
def distanceSim (a b : Object) : ℝ :=
  Real.sqrt ((b.position.1 - a.position.1) * (b.position.1 - a.position.1) +
             (b.position.2 - a.position.2) * (b.position.2 - a.position.2))

/-- `Object::CheckCollision` (lines 49-62) acting on `this = a` and
`other = b`: computes the simulation-space distance between the two
positions and, when `other.radius + this->radius > distance`, negates
both velocity vectors; otherwise leaves both bodies unchanged. -/
def CheckCollision (a b : Object) : Object × Object :=
  if b.radius + a.radius > distanceSim a b then (negVel a, negVel b) else (a, b)

/-- Real-world distance (line 138): `distanceSim / SPACE_SCALE`. -/
def distanceReal (ss : ℝ) (a b : Object) : ℝ := distanceSim a b / ss

/-- Unit direction vector from `a` toward `b` (line 146). -/
def direction (a b : Object) : ℝ × ℝ :=
  ((b.position.1 - a.position.1) / distanceSim a b,
   (b.position.2 - a.position.2) / distanceSim a b)

/-- Gravitational force magnitude of the pair (line 149):
`G * obj.mass * obj2.mass / (distanceReal * distanceReal)`. -/
def forceMag (ss : ℝ) (a b : Object) : ℝ :=
  G * a.mass * b.mass / (distanceReal ss a b * distanceReal ss a b)

/-- One iteration of the inner force loop (lines 132-156) for `obj = o`
and `obj2 = o2`: if `distanceReal` is below the sum of the two real
radii the pair is skipped (`continue`, lines 141-143); otherwise the
acceleration `force / obj.mass` is applied to `o` along the unit
direction toward `o2` via `accelerate`. -/
def gravityFrom (ts ss : ℝ) (o o2 : Object) : Object :=
  if distanceReal ss o o2 < o.realRadius + o2.realRadius then o
  else
    accelerate ts o
      (forceMag ss o o2 / o.mass * (direction o o2).1)
      (forceMag ss o o2 / o.mass * (direction o o2).2)

/-- The force-accumulation loop for the body at index `i` (lines
127-156): folds `gravityFrom` over every index `j ≠ i` of the current
state, starting from the body's current value. -/
def forcePhase (ts ss : ℝ) (st : List Object) (i : ℕ) : Object :=
  (List.range st.length).foldl
    (fun o j => if j = i then o else gravityFrom ts ss o (st.getD j defaultObject))
    (st.getD i defaultObject)

/-- The y-axis boundary clamp (lines 166-174): if the body's lower edge
passed `-1` it is clamped to `-1 + radius` with the y-velocity reflected;
else if the upper edge passed `1` it is clamped to `1 - radius` with the
y-velocity reflected. -/
def boundaryY (o : Object) : Object :=
  if o.position.2 - o.radius < -1 then
    { o with position := (o.position.1, -1 + o.radius),
             velocity := (o.velocity.1, -o.velocity.2) }
  else if o.position.2 + o.radius > 1 then
    { o with position := (o.position.1, 1 - o.radius),
             velocity := (o.velocity.1, -o.velocity.2) }
  else o

/-- The x-axis boundary clamp (lines 176-183), analogous to `boundaryY`. -/
def boundaryX (o : Object) : Object :=
  if o.position.1 - o.radius < -1 then
    { o with position := (-1 + o.radius, o.position.2),
             velocity := (-o.velocity.1, o.velocity.2) }
  else if o.position.1 + o.radius > 1 then
    { o with position := (1 - o.radius, o.position.2),
             velocity := (-o.velocity.1, o.velocity.2) }
  else o

/-- The full boundary handling of one body (lines 166-183): the y-axis
clamp runs first, then the x-axis clamp. -/
def boundary (o : Object) : Object := boundaryX (boundaryY o)

/-- One iteration of the collision loop (lines 186-190) for outer body
index `i` and inner index `j`: `objs[i].CheckCollision(objs[j])`,
writing back the two possibly-modified bodies. -/
def collideAt (i j : ℕ) (st : List Object) : List Object :=
  let r := CheckCollision (st.getD i defaultObject) (st.getD j defaultObject)
  (st.set i r.1).set j r.2

/-- The collision loop of body `i` (lines 186-190): for every index `j`
of the vector, when `&obj != &objs[j]` (that is `j ≠ i`), invoke
`CheckCollision` on the current state. -/
def collisionLoop (i : ℕ) (st : List Object) : List Object :=
  (List.range st.length).foldl (fun s j => if j = i then s else collideAt i j s) st

/-- The body of the outer per-frame loop (lines 125-191) for the body at
index `i`: force accumulation over all other bodies, then
`updatePosition()`, then the boundary clamps, then the collision loop.
(The draw call between integration and clamping has no state effect and
is omitted.) -/
def processBody (ts ss : ℝ) (st : List Object) (i : ℕ) : List Object :=
  collisionLoop i (st.set i (boundary (updatePosition ts ss (forcePhase ts ss st i))))

/-- One frame (tick) of the simulation loop (lines 117-195): process
every body index in order. -/
def tick (ts ss : ℝ) (st : List Object) : List Object :=
  (List.range st.length).foldl (processBody ts ss) st

/-- State of the simulation after `n` ticks from the initial body list. -/
def run (ts ss : ℝ) (st : List Object) : ℕ → List Object
  | 0 => st
  | n + 1 => tick ts ss (run ts ss st n)

/-- The Earth body of `main.cpp` lines 85-91. -/
def earth : Object := ⟨(0, 0), (0, 0), 0.1, 5.97e24, 6371000⟩

/-- The Moon body of `main.cpp` lines 93-99. -/
def moon : Object := ⟨(0.384, 0), (0, 1022), 0.05, 7.35e22, 1737000⟩

/-- The exact state of the Earth after it is processed in the first tick
of the Earth-Moon scenario: it has been accelerated toward the Moon and
its position advanced by the new velocity. -/
def earthAfterFirst : Object :=
  ⟨(163513 / 1966080000, 0), (163513 / 98304, 0), 0.1, 5.97e24, 6371000⟩

/-- The exact state of the Moon right after its force-accumulation loop in
the first tick: pulled toward the (already moved) Earth along `-x`. -/
def moonAfterForce : Object :=
  ⟨(0.384, 0), (-(77007479422058496000 / 569739958212796849), 1022),
   0.05, 7.35e22, 1737000⟩

/-- The exact state of the Moon after its integration step in the first
tick (position advanced by the post-acceleration velocity). -/
def moonAfterFirst : Object :=
  ⟨(26866221247826383152 / 71217494776599606125, 0.0511),
   (-(77007479422058496000 / 569739958212796849), 1022),
   0.05, 7.35e22, 1737000⟩

/-- The index pairs `(i, j)` at which body `i`'s collision loop (lines
186-190) invokes `objs[i].CheckCollision(objs[j])`: every inner index
`j` of the vector with `j ≠ i`, in loop order. -/
def processBodyCalls (n i : ℕ) : List (ℕ × ℕ) :=
  ((List.range n).filter (fun j => j ≠ i)).map (fun j => (i, j))

/-- The index pairs at which one full tick over `n` bodies invokes
`CheckCollision`: the collision loop of every outer body index in order. -/
def tickCollisionCalls (n : ℕ) : List (ℕ × ℕ) :=
  (List.range n).flatMap (processBodyCalls n)

/-- `collideAt` instrumented to record the invocation of
`CheckCollision` in a trace of index pairs. -/
def collideT (i j : ℕ) (sc : List Object × List (ℕ × ℕ)) :
    List Object × List (ℕ × ℕ) :=
  (collideAt i j sc.1, sc.2 ++ [(i, j)])

/-- `collisionLoop` instrumented with the invocation trace. -/
def collisionLoopT (i : ℕ) (sc : List Object × List (ℕ × ℕ)) :
    List Object × List (ℕ × ℕ) :=
  (List.range sc.1.length).foldl (fun s j => if j = i then s else collideT i j s) sc

/-- `processBody` instrumented with the invocation trace. -/
def processBodyT (ts ss : ℝ) (sc : List Object × List (ℕ × ℕ)) (i : ℕ) :
    List Object × List (ℕ × ℕ) :=
  collisionLoopT i
    (sc.1.set i (boundary (updatePosition ts ss (forcePhase ts ss sc.1 i))), sc.2)

/-- `tick` instrumented with the trace of all `CheckCollision`
invocations made during the frame, in order. -/
def tickT (ts ss : ℝ) (st : List Object) : List Object × List (ℕ × ℕ) :=
  (List.range st.length).foldl (processBodyT ts ss) (st, [])

/-- A single free body with nonzero velocity, used to exercise a
one-body system. -/
def soloBody : Object := ⟨(0, 0), (1, 0), 0.1, 1, 1⟩

/-- A body overlapping the `+1` edge on both axes, with both lower edges
in bounds. -/
def cornerBody : Object := ⟨(0.95, 0.95), (2, 3), 0.1, 1, 1⟩

/-- A body whose display radius exceeds 1, so that both the `-1` and the
`+1` edge of the same axis are out of bounds at once. -/
def bigBody : Object := ⟨(0, 0), (5, 7), 2, 1, 1⟩

/-- A body at rest, fully inside the boundary. -/
def restBody : Object := ⟨(0.2, 0.3), (0, 0), 0.1, 1, 1⟩

/-- First of a pair of coincident bodies. -/
def coinA : Object := ⟨(0.5, 0.5), (1, 2), 0.2, 3, 1⟩

/-- Second of a pair of coincident bodies. -/
def coinB : Object := ⟨(0.5, 0.5), (3, 4), 0.3, 4, 1⟩

/-- First of a pair of well-separated bodies. -/
def sepA : Object := ⟨(0, 0), (0, 0), 0.1, 2, 1000000⟩

/-- Second of a pair of well-separated bodies. -/
def sepB : Object := ⟨(0.3, 0), (0, 0), 0.1, 3, 1000000⟩

/-! ### Helper lemmas -/

theorem distanceSim_comm (a b : Object) : distanceSim a b = distanceSim b a := by
  unfold distanceSim
  congr 1
  ring

theorem distanceSim_horiz (a b : Object) (h2 : a.position.2 = b.position.2)
    (h1 : a.position.1 ≤ b.position.1) :
    distanceSim a b = b.position.1 - a.position.1 := by
  unfold distanceSim
  rw [h2, sub_self, mul_zero, add_zero, Real.sqrt_mul_self (sub_nonneg.2 h1)]

theorem CheckCollision_fst_position (a b : Object) :
    (CheckCollision a b).1.position = a.position := by
  unfold CheckCollision
  split_ifs <;> rfl

theorem CheckCollision_snd_position (a b : Object) :
    (CheckCollision a b).2.position = b.position := by
  unfold CheckCollision
  split_ifs <;> rfl

theorem gravityFrom_position (ts ss : ℝ) (o o2 : Object) :
    (gravityFrom ts ss o o2).position = o.position := by
  unfold gravityFrom accelerate
  split_ifs <;> rfl

/-! ### Claim theorems -/

/-- C8: `updatePosition()` adds `velocity * timeScale * spaceScale` to each
position component, as a function only of the current velocity and the two
scale constants, and mutates nothing but the position. -/
theorem updatePosition_advances_position_only (ts ss : ℝ) (o : Object) :
    (updatePosition ts ss o).position.1 = o.position.1 + o.velocity.1 * ts * ss ∧
    (updatePosition ts ss o).position.2 = o.position.2 + o.velocity.2 * ts * ss ∧
    (updatePosition ts ss o).velocity = o.velocity ∧
    (updatePosition ts ss o).radius = o.radius ∧
    (updatePosition ts ss o).mass = o.mass ∧
    (updatePosition ts ss o).realRadius = o.realRadius :=
  ⟨rfl, rfl, rfl, rfl, rfl, rfl⟩

/-- C5: for every ordered pair of distinct bodies whose real distance is
below the sum of their physical radii, the force-accumulation step for that
pair leaves the accelerated body exactly unchanged: the pair is skipped. -/
theorem forceSkip_zero_contribution (ts ss : ℝ) (a b : Object)
    (h : distanceReal ss a b < a.realRadius + b.realRadius) :
    gravityFrom ts ss a b = a := by
  unfold gravityFrom
  exact if_pos h

/-- Witness for C5: two coincident unit-radius bodies are skipped. -/
theorem forceSkip_zero_contribution_witness :
    distanceReal SPACE_SCALE coinA coinB < coinA.realRadius + coinB.realRadius ∧
    gravityFrom TIME_SCALE SPACE_SCALE coinA coinB = coinA := by
  have hd : distanceReal SPACE_SCALE coinA coinB < coinA.realRadius + coinB.realRadius := by
    unfold distanceReal distanceSim coinA coinB
    norm_num
  exact ⟨hd, forceSkip_zero_contribution TIME_SCALE SPACE_SCALE coinA coinB hd⟩

/-- C9: the simulation core is deterministic: two runs from identical
initial body lists with identical scale constants produce identical states
after every number of ticks. -/
theorem run_deterministic (ts₁ ss₁ ts₂ ss₂ : ℝ) (init₁ init₂ : List Object) (n : ℕ)
    (hts : ts₁ = ts₂) (hss : ss₁ = ss₂) (hinit : init₁ = init₂) :
    run ts₁ ss₁ init₁ n = run ts₂ ss₂ init₂ n := by
  subst hts
  subst hss
  subst hinit
  rfl

/-- Witness for C9: two identically-configured Earth-Moon runs agree. -/
theorem run_deterministic_witness :
    run TIME_SCALE SPACE_SCALE [earth, moon] 5 = run TIME_SCALE SPACE_SCALE [earth, moon] 5 :=
  run_deterministic TIME_SCALE SPACE_SCALE TIME_SCALE SPACE_SCALE [earth, moon] [earth, moon] 5
    rfl rfl rfl

/-- C10: for bodies with strictly positive physical radii at coincident
positions, the simulation distance is zero, hence the real distance is
below the (positive) radius sum and the minimum-separation skip fires
before the divisions by `distanceSim` and `distanceReal²` are reached. -/
theorem coincident_positions_skip (ts ss : ℝ) (a b : Object)
    (ha : 0 < a.realRadius) (hb : 0 < b.realRadius)
    (hpos : a.position = b.position) :
    distanceSim a b = 0 ∧
    distanceReal ss a b < a.realRadius + b.realRadius ∧
    gravityFrom ts ss a b = a := by
  have h0 : distanceSim a b = 0 := by
    unfold distanceSim
    rw [hpos]
    simp
  have h1 : distanceReal ss a b = 0 := by
    unfold distanceReal
    rw [h0, zero_div]
  have h2 : distanceReal ss a b < a.realRadius + b.realRadius := by
    rw [h1]
    exact add_pos ha hb
  exact ⟨h0, h2, by unfold gravityFrom; exact if_pos h2⟩

/-- Witness for C10: the coincident pair with unit physical radii. -/
theorem coincident_positions_skip_witness :
    0 < coinA.realRadius ∧ 0 < coinB.realRadius ∧ coinA.position = coinB.position ∧
    (distanceSim coinA coinB = 0 ∧
     distanceReal SPACE_SCALE coinA coinB < coinA.realRadius + coinB.realRadius ∧
     gravityFrom TIME_SCALE SPACE_SCALE coinA coinB = coinA) :=
  ⟨by norm_num [coinA], by norm_num [coinB], rfl,
   coincident_positions_skip TIME_SCALE SPACE_SCALE coinA coinB
     (by norm_num [coinA]) (by norm_num [coinB]) rfl⟩

/-- C4: `CheckCollision` detects a collision exactly when the simulation
distance is strictly below the sum of the display radii; on collision both
velocities are negated, otherwise both bodies are unchanged, and positions
are never modified. -/
theorem CheckCollision_response_spec (a b : Object) :
    (CheckCollision a b).1.position = a.position ∧
    (CheckCollision a b).2.position = b.position ∧
    (distanceSim a b < a.radius + b.radius →
      CheckCollision a b = (negVel a, negVel b)) ∧
    (a.radius + b.radius ≤ distanceSim a b →
      CheckCollision a b = (a, b)) := by
  refine ⟨CheckCollision_fst_position a b, CheckCollision_snd_position a b, ?_, ?_⟩
  · intro h
    unfold CheckCollision
    exact if_pos (by rw [add_comm]; exact h)
  · intro h
    unfold CheckCollision
    exact if_neg (not_lt.2 (by rw [add_comm] at h; exact h))

/-- Witness for C4: the coincident pair collides and both velocities are
negated. -/
theorem CheckCollision_response_spec_witness :
    distanceSim coinA coinB < coinA.radius + coinB.radius ∧
    CheckCollision coinA coinB = (negVel coinA, negVel coinB) := by
  have hd : distanceSim coinA coinB < coinA.radius + coinB.radius := by
    unfold distanceSim coinA coinB
    norm_num
  exact ⟨hd, (CheckCollision_response_spec coinA coinB).2.2.1 hd⟩

/-- C7: for bodies with positive physical radii at real distance at least
their radius sum, the computed force magnitude is symmetric in the two
bodies, the unit directions are reversed, and the magnitude times the
squared real distance is the constant `G * massA * massB` (inverse-square
scaling). -/
theorem force_pair_symmetry (ss : ℝ) (a b : Object)
    (ha : 0 < a.realRadius) (hb : 0 < b.realRadius)
    (h : a.realRadius + b.realRadius ≤ distanceReal ss a b) :
    forceMag ss a b = forceMag ss b a ∧
    (direction a b).1 = -(direction b a).1 ∧
    (direction a b).2 = -(direction b a).2 ∧
    forceMag ss a b * (distanceReal ss a b * distanceReal ss a b) =
      G * a.mass * b.mass := by
  have hsym : distanceSim a b = distanceSim b a := distanceSim_comm a b
  have hdr : distanceReal ss a b = distanceReal ss b a := by
    unfold distanceReal
    rw [hsym]
  have hd0 : 0 < distanceReal ss a b := lt_of_lt_of_le (add_pos ha hb) h
  refine ⟨?_, ?_, ?_, ?_⟩
  · unfold forceMag
    rw [hdr]
    ring
  · unfold direction
    rw [hsym, ← neg_div, neg_sub]
  · unfold direction
    rw [hsym, ← neg_div, neg_sub]
  · unfold forceMag
    exact div_mul_cancel₀ _ (mul_pos hd0 hd0).ne'

/-- Witness for C7: the separated pair at distance 0.3 in simulation
space (3·10⁸ m in real space). -/
theorem force_pair_symmetry_witness :
    0 < sepA.realRadius ∧ 0 < sepB.realRadius ∧
    sepA.realRadius + sepB.realRadius ≤ distanceReal SPACE_SCALE sepA sepB ∧
    (forceMag SPACE_SCALE sepA sepB = forceMag SPACE_SCALE sepB sepA ∧
     (direction sepA sepB).1 = -(direction sepB sepA).1 ∧
     (direction sepA sepB).2 = -(direction sepB sepA).2 ∧
     forceMag SPACE_SCALE sepA sepB *
       (distanceReal SPACE_SCALE sepA sepB * distanceReal SPACE_SCALE sepA sepB) =
       G * sepA.mass * sepB.mass) := by
  have hds : distanceSim sepA sepB = 0.3 := by
    have := distanceSim_horiz sepA sepB (by norm_num [sepA, sepB]) (by norm_num [sepA, sepB])
    rw [this]
    norm_num [sepA, sepB]
  have hsep : sepA.realRadius + sepB.realRadius ≤ distanceReal SPACE_SCALE sepA sepB := by
    unfold distanceReal
    rw [hds]
    norm_num [sepA, sepB, SPACE_SCALE]
  exact ⟨by norm_num [sepA], by norm_num [sepB], hsep,
    force_pair_symmetry SPACE_SCALE sepA sepB
      (by norm_num [sepA]) (by norm_num [sepB]) hsep⟩

/-- C3 counterexample: a single free body with nonzero velocity does not
keep its initial position: after one tick it has moved by
`velocity * TIME_SCALE * SPACE_SCALE`. -/
theorem single_body_moves :
    ((run TIME_SCALE SPACE_SCALE [soloBody] 1).getD 0 defaultObject).position ≠
      soloBody.position := by
  norm_num [run, tick, processBody, forcePhase, collisionLoop, collideAt, boundary,
    boundaryY, boundaryX, updatePosition, gravityFrom, soloBody, defaultObject,
    TIME_SCALE, SPACE_SCALE, List.range_succ]

/-- C3 amended: a single body with zero velocity whose visual edges start
inside the boundary keeps its exact position and velocity after any number
of ticks: it receives no self-force and no collision response, and the
boundary clamp never fires. -/
theorem single_resting_body_fixed (ts ss : ℝ) (b : Object)
    (hv : b.velocity = (0, 0))
    (h1 : -1 ≤ b.position.2 - b.radius) (h2 : b.position.2 + b.radius ≤ 1)
    (h3 : -1 ≤ b.position.1 - b.radius) (h4 : b.position.1 + b.radius ≤ 1)
    (n : ℕ) :
    run ts ss [b] n = [b] := by
  obtain ⟨⟨px, py⟩, v, r, m, rr⟩ := b
  obtain rfl : v = (0, 0) := hv
  have hstep : tick ts ss [Object.mk (px, py) (0, 0) r m rr] =
      [Object.mk (px, py) (0, 0) r m rr] := by
    have hup : updatePosition ts ss (Object.mk (px, py) (0, 0) r m rr) =
        Object.mk (px, py) (0, 0) r m rr := by
      unfold updatePosition
      norm_num
    have hby : boundaryY (Object.mk (px, py) (0, 0) r m rr) =
        Object.mk (px, py) (0, 0) r m rr := by
      unfold boundaryY
      rw [if_neg (not_lt.2 h1), if_neg (not_lt.2 h2)]
    have hbx : boundaryX (Object.mk (px, py) (0, 0) r m rr) =
        Object.mk (px, py) (0, 0) r m rr := by
      unfold boundaryX
      rw [if_neg (not_lt.2 h3), if_neg (not_lt.2 h4)]
    have h00 : ((0 : ℝ), (0 : ℝ)) = (0 : ℝ × ℝ) := rfl
    rw [h00] at hup hby hbx
    simp [tick, processBody, forcePhase, collisionLoop, boundary, hup, hby, hbx,
      List.range_succ]
  induction n with
  | zero => rfl
  | succ n ih => rw [run, ih, hstep]

/-- Witness for C3 amended: the resting in-bounds body is fixed for three
ticks of the Earth-Moon scale configuration. -/
theorem single_resting_body_fixed_witness :
    run TIME_SCALE SPACE_SCALE [restBody] 3 = [restBody] :=
  single_resting_body_fixed TIME_SCALE SPACE_SCALE restBody rfl
    (by norm_num [restBody]) (by norm_num [restBody])
    (by norm_num [restBody]) (by norm_num [restBody]) 3

/-- C6 counterexample: for a body whose display radius exceeds 1 the `+1`
edge is out of bounds, but the clamp sets the axis position to
`-1 + radius`, not `1 - radius`: the `-1` branch takes precedence. -/
theorem boundary_big_radius_counterexample :
    bigBody.position.2 + bigBody.radius > 1 ∧
    (boundary bigBody).position.2 ≠ 1 - bigBody.radius := by
  constructor
  · norm_num [bigBody]
  · norm_num [boundary, boundaryY, boundaryX, bigBody]

/-- C6 amended: an axis whose `-1` edge is out of bounds is clamped to
`-1 + radius` with the axis velocity reflected; otherwise an axis whose
`+1` edge is out of bounds is clamped to `1 - radius` with the axis
velocity reflected; each clamp leaves the other axis's position and
velocity untouched, and both axes can trigger in the same tick (witnessed
by `cornerBody`). -/
theorem boundary_clamp_spec (o : Object) :
    (o.position.2 - o.radius < -1 →
      boundaryY o = { o with position := (o.position.1, -1 + o.radius),
                             velocity := (o.velocity.1, -o.velocity.2) }) ∧
    (¬(o.position.2 - o.radius < -1) → o.position.2 + o.radius > 1 →
      boundaryY o = { o with position := (o.position.1, 1 - o.radius),
                             velocity := (o.velocity.1, -o.velocity.2) }) ∧
    (o.position.1 - o.radius < -1 →
      boundaryX o = { o with position := (-1 + o.radius, o.position.2),
                             velocity := (-o.velocity.1, o.velocity.2) }) ∧
    (¬(o.position.1 - o.radius < -1) → o.position.1 + o.radius > 1 →
      boundaryX o = { o with position := (1 - o.radius, o.position.2),
                             velocity := (-o.velocity.1, o.velocity.2) }) ∧
    boundary cornerBody = ⟨(0.9, 0.9), (-2, -3), 0.1, 1, 1⟩ := by
  refine ⟨?_, ?_, ?_, ?_, ?_⟩
  · intro h
    unfold boundaryY
    rw [if_pos h]
  · intro h1 h2
    unfold boundaryY
    rw [if_neg h1, if_pos h2]
  · intro h
    unfold boundaryX
    rw [if_pos h]
  · intro h1 h2
    unfold boundaryX
    rw [if_neg h1, if_pos h2]
  · norm_num [boundary, boundaryY, boundaryX, cornerBody]

/-- Witness for C6 amended: `cornerBody`'s upper y-edge is out of bounds
while its lower y-edge is in bounds, and the y-clamp lands on
`1 - radius` with the x-axis untouched. -/
theorem boundary_clamp_spec_witness :
    ¬(cornerBody.position.2 - cornerBody.radius < -1) ∧
    cornerBody.position.2 + cornerBody.radius > 1 ∧
    boundaryY cornerBody =
      { cornerBody with
          position := (cornerBody.position.1, 1 - cornerBody.radius),
          velocity := (cornerBody.velocity.1, -cornerBody.velocity.2) } := by
  have h1 : ¬(cornerBody.position.2 - cornerBody.radius < -1) := by
    norm_num [cornerBody]
  have h2 : cornerBody.position.2 + cornerBody.radius > 1 := by
    norm_num [cornerBody]
  exact ⟨h1, h2, (boundary_clamp_spec cornerBody).2.1 h1 h2⟩

/-! ### Collision invocation counting -/

theorem count_flatMap_pairs (l : List ℕ) (f : ℕ → List (ℕ × ℕ)) (p : ℕ × ℕ) :
    ((l.flatMap f).count p) = (l.map fun k => (f k).count p).sum := by
  induction l with
  | nil => rfl
  | cons a t ih => simp [List.flatMap_cons, List.count_append, ih]

theorem length_flatMap_pairs (l : List ℕ) (f : ℕ → List (ℕ × ℕ)) :
    (l.flatMap f).length = (l.map fun k => (f k).length).sum := by
  induction l with
  | nil => rfl
  | cons a t ih => simp [List.flatMap_cons, ih]

theorem count_pair_map (i j : ℕ) (l : List ℕ) :
    (l.map (fun j' => ((i, j') : ℕ × ℕ))).count (i, j) = l.count j := by
  induction l with
  | nil => rfl
  | cons a t ih =>
    by_cases h : j = a
    · subst h
      simp [ih]
    · rw [List.map_cons, List.count_cons_of_ne (by simp [h]), List.count_cons_of_ne h, ih]

theorem count_range_eq_one (n j : ℕ) (hj : j < n) : (List.range n).count j = 1 := by
  induction n with
  | zero => omega
  | succ n ih =>
    rw [List.range_succ, List.count_append]
    by_cases h : j = n
    · subst h
      have h0 : (List.range j).count j = 0 := List.count_eq_zero.2 (by simp)
      rw [h0, List.count_singleton_self]
    · have hj' : j < n := by omega
      rw [ih hj', List.count_singleton,
        show (n == j) = false from beq_eq_false_iff_ne.2 (Ne.symm h)]
      rfl

theorem count_processBodyCalls_self (n i j : ℕ) (hj : j < n) (hij : j ≠ i) :
    (processBodyCalls n i).count (i, j) = 1 := by
  unfold processBodyCalls
  rw [count_pair_map, List.count_filter (by simp [hij]), count_range_eq_one n j hj]

theorem count_processBodyCalls_other (n i j k : ℕ) (hk : k ≠ i) :
    (processBodyCalls n k).count (i, j) = 0 := by
  unfold processBodyCalls
  rw [List.count_eq_zero]
  intro hmem
  rcases List.mem_map.1 hmem with ⟨j', _, hj'⟩
  exact hk (Prod.ext_iff.1 hj').1

theorem sum_map_indicator (l : List ℕ) (i : ℕ) (c : ℕ) (hnd : l.Nodup) (hi : i ∈ l) :
    (l.map fun k => if k = i then c else 0).sum = c := by
  induction l with
  | nil => cases hi
  | cons a t ih =>
    have hna : a ∉ t := (List.nodup_cons.1 hnd).1
    rcases List.mem_cons.1 hi with heq | hmem
    · simp only [List.map_cons, List.sum_cons, if_pos heq.symm]
      have hz : (t.map fun k => if k = i then c else 0).sum = 0 := by
        apply List.sum_eq_zero
        intro x hx
        rcases List.mem_map.1 hx with ⟨k, hk, rfl⟩
        have hka : k ≠ i := by
          intro h
          apply hna
          rw [← heq, ← h]
          exact hk
        simp [hka]
      rw [hz]
      omega
    · have ha : a ≠ i := by
        intro h
        apply hna
        rw [h]
        exact hmem
      simp only [List.map_cons, List.sum_cons, if_neg ha, Nat.zero_add]
      exact ih (List.nodup_cons.1 hnd).2 hmem

theorem length_filter_ne (n k : ℕ) (hk : k < n) :
    ((List.range n).filter (fun j => j ≠ k)).length = n - 1 := by
  induction n with
  | zero => omega
  | succ n ih =>
    rw [List.range_succ, List.filter_append, List.length_append]
    by_cases h : n = k
    · subst h
      have hself : (List.range n).filter (fun j => j ≠ n) = List.range n :=
        List.filter_eq_self.2 (by
          intro a ha
          simp [Nat.ne_of_lt (List.mem_range.1 ha)])
      have hone : (List.filter (fun j => decide (j ≠ n)) [n]).length = 0 := by simp
      rw [hself, hone, List.length_range]
      omega
    · have hk' : k < n := by omega
      rw [ih hk']
      have hone : (List.filter (fun j => decide (j ≠ k)) [n]).length = 1 := by simp [h]
      rw [hone]
      omega

theorem collideFold_trace (i : ℕ) (l : List ℕ) (st : List Object) (c : List (ℕ × ℕ)) :
    (l.foldl (fun s j => if j = i then s else collideT i j s) (st, c)) =
      (l.foldl (fun s j => if j = i then s else collideAt i j s) st,
       c ++ (l.filter (fun j => j ≠ i)).map (fun j => (i, j))) := by
  induction l generalizing st c with
  | nil => simp
  | cons a t ih =>
    simp only [List.foldl_cons]
    by_cases h : a = i
    · rw [if_pos h, if_pos h, ih]
      simp [List.filter_cons, h]
    · rw [if_neg h, if_neg h,
        show collideT i a (st, c) = (collideAt i a st, c ++ [(i, a)]) from rfl, ih]
      simp [List.filter_cons, h]

theorem length_collideFold (i : ℕ) (l : List ℕ) (st : List Object) :
    (l.foldl (fun s j => if j = i then s else collideAt i j s) st).length = st.length := by
  induction l generalizing st with
  | nil => rfl
  | cons a t ih =>
    by_cases h : a = i
    · simp only [List.foldl_cons, if_pos h]
      exact ih st
    · simp only [List.foldl_cons, if_neg h]
      rw [ih]
      simp [collideAt]

theorem collisionLoopT_eq (i : ℕ) (st : List Object) (c : List (ℕ × ℕ)) :
    collisionLoopT i (st, c) = (collisionLoop i st, c ++ processBodyCalls st.length i) := by
  unfold collisionLoopT collisionLoop processBodyCalls
  exact collideFold_trace i (List.range st.length) st c

theorem length_processBody (ts ss : ℝ) (st : List Object) (i : ℕ) :
    (processBody ts ss st i).length = st.length := by
  unfold processBody collisionLoop
  rw [length_collideFold]
  simp

theorem processBodyT_eq (ts ss : ℝ) (st : List Object) (c : List (ℕ × ℕ)) (i : ℕ) :
    processBodyT ts ss (st, c) i =
      (processBody ts ss st i, c ++ processBodyCalls st.length i) := by
  unfold processBodyT processBody
  rw [collisionLoopT_eq]
  simp

theorem tickFold_trace (ts ss : ℝ) (l : List ℕ) (st : List Object) (c : List (ℕ × ℕ)) :
    l.foldl (processBodyT ts ss) (st, c) =
      (l.foldl (processBody ts ss) st, c ++ l.flatMap (processBodyCalls st.length)) := by
  induction l generalizing st c with
  | nil => simp
  | cons a t ih =>
    rw [List.foldl_cons, processBodyT_eq, List.foldl_cons, ih, length_processBody]
    simp [List.flatMap_cons]

theorem tickT_fst (ts ss : ℝ) (st : List Object) : (tickT ts ss st).1 = tick ts ss st := by
  unfold tickT tick
  rw [tickFold_trace]

theorem tickT_snd (ts ss : ℝ) (st : List Object) :
    (tickT ts ss st).2 = tickCollisionCalls st.length := by
  unfold tickT tickCollisionCalls
  rw [tickFold_trace]
  simp

/-- C2 counterexample: the two-body Earth-Moon tick has exactly one
unordered pair of distinct bodies, yet `CheckCollision` is invoked twice
during the tick — at outer/inner index pairs (0,1) and (1,0) — not once. -/
theorem collision_invocations_two_bodies :
    (tickT TIME_SCALE SPACE_SCALE [earth, moon]).2 = [(0, 1), (1, 0)] ∧
    (tickT TIME_SCALE SPACE_SCALE [earth, moon]).2.length ≠ 1 := by
  have h : (tickT TIME_SCALE SPACE_SCALE [earth, moon]).2 = tickCollisionCalls 2 :=
    tickT_snd TIME_SCALE SPACE_SCALE [earth, moon]
  rw [h]
  decide

/-- C2 amended: per tick, `CheckCollision` is invoked exactly once per
ordered pair of distinct body indices — hence twice per unordered pair,
`n * (n - 1)` invocations in total. -/
theorem collision_invocations_once_per_ordered_pair (n i j : ℕ)
    (hi : i < n) (hj : j < n) (hij : i ≠ j) :
    (tickCollisionCalls n).count (i, j) = 1 ∧
    (tickCollisionCalls n).length = n * (n - 1) := by
  constructor
  · rw [tickCollisionCalls, count_flatMap_pairs]
    have hmap : (List.range n).map (fun k => (processBodyCalls n k).count (i, j)) =
        (List.range n).map (fun k => if k = i then 1 else 0) := by
      apply List.map_congr_left
      intro k _
      by_cases h : k = i
      · subst h
        rw [if_pos rfl]
        exact count_processBodyCalls_self n k j hj (Ne.symm hij)
      · rw [if_neg h]
        exact count_processBodyCalls_other n i j k h
    rw [hmap]
    exact sum_map_indicator (List.range n) i 1 (List.nodup_range n) (List.mem_range.2 hi)
  · rw [tickCollisionCalls, length_flatMap_pairs]
    have hmap : (List.range n).map (fun k => (processBodyCalls n k).length) =
        (List.range n).map (fun _ => n - 1) := by
      apply List.map_congr_left
      intro k hk
      unfold processBodyCalls
      rw [List.length_map]
      exact length_filter_ne n k (List.mem_range.1 hk)
    rw [hmap, List.map_const', List.sum_const_nat, List.length_range]

/-- Witness for C2 amended: with three bodies, the ordered pair (1,2) is
invoked exactly once and six invocations happen in total. -/
theorem collision_invocations_once_per_ordered_pair_witness :
    (tickCollisionCalls 3).count (1, 2) = 1 ∧
    (tickCollisionCalls 3).length = 3 * (3 - 1) :=
  collision_invocations_once_per_ordered_pair 3 1 2 (by decide) (by decide) (by decide)

/-! ### The first tick of the Earth-Moon scenario, exactly -/

theorem distanceSim_earth_moon : distanceSim earth moon = 0.384 := by
  rw [distanceSim_horiz earth moon rfl (by norm_num [earth, moon])]
  norm_num [earth, moon]

theorem gravity_earth_moon :
    gravityFrom TIME_SCALE SPACE_SCALE earth moon =
      ⟨(0, 0), (163513 / 98304, 0), 0.1, 5.97e24, 6371000⟩ := by
  have hdr : distanceReal SPACE_SCALE earth moon = 384000000 := by
    unfold distanceReal
    rw [distanceSim_earth_moon]
    norm_num [SPACE_SCALE]
  unfold gravityFrom
  rw [if_neg (by rw [hdr]; norm_num [earth, moon])]
  unfold accelerate forceMag direction
  rw [distanceSim_earth_moon, hdr]
  norm_num [earth, moon, G, TIME_SCALE]

theorem forcePhase_earth :
    forcePhase TIME_SCALE SPACE_SCALE [earth, moon] 0 =
      ⟨(0, 0), (163513 / 98304, 0), 0.1, 5.97e24, 6371000⟩ := by
  unfold forcePhase
  rw [show List.range ([earth, moon] : List Object).length = [0, 1] from rfl,
    List.foldl_cons, List.foldl_cons, List.foldl_nil, if_pos rfl,
    if_neg one_ne_zero]
  exact gravity_earth_moon

theorem updatePosition_earth :
    updatePosition TIME_SCALE SPACE_SCALE
      ⟨(0, 0), (163513 / 98304, 0), 0.1, 5.97e24, 6371000⟩ = earthAfterFirst := by
  unfold updatePosition earthAfterFirst
  norm_num [TIME_SCALE, SPACE_SCALE]

theorem boundary_earthAfterFirst : boundary earthAfterFirst = earthAfterFirst := by
  unfold boundary boundaryY boundaryX earthAfterFirst
  norm_num

theorem distanceSim_earthAfterFirst_moon :
    distanceSim earthAfterFirst moon = 754811207 / 1966080000 := by
  rw [distanceSim_horiz earthAfterFirst moon rfl (by norm_num [earthAfterFirst, moon])]
  norm_num [earthAfterFirst, moon]

theorem checkCollision_earthAfterFirst_moon :
    CheckCollision earthAfterFirst moon = (earthAfterFirst, moon) := by
  unfold CheckCollision
  rw [distanceSim_earthAfterFirst_moon]
  rw [if_neg (by norm_num [earthAfterFirst, moon])]

theorem earth_step :
    processBody TIME_SCALE SPACE_SCALE [earth, moon] 0 = [earthAfterFirst, moon] := by
  unfold processBody
  rw [forcePhase_earth, updatePosition_earth, boundary_earthAfterFirst,
    show ([earth, moon] : List Object).set 0 earthAfterFirst = [earthAfterFirst, moon]
      from rfl]
  unfold collisionLoop
  rw [show List.range ([earthAfterFirst, moon] : List Object).length = [0, 1] from rfl,
    List.foldl_cons, List.foldl_cons, List.foldl_nil, if_pos rfl,
    if_neg one_ne_zero]
  unfold collideAt
  rw [show ([earthAfterFirst, moon] : List Object).getD 0 defaultObject = earthAfterFirst
      from rfl,
    show ([earthAfterFirst, moon] : List Object).getD 1 defaultObject = moon from rfl,
    checkCollision_earthAfterFirst_moon]
  rfl

theorem forcePhase_moon :
    forcePhase TIME_SCALE SPACE_SCALE [earthAfterFirst, moon] 1 = moonAfterForce := by
  unfold forcePhase
  rw [show List.range ([earthAfterFirst, moon] : List Object).length = [0, 1] from rfl,
    List.foldl_cons, List.foldl_cons, List.foldl_nil, if_neg zero_ne_one, if_pos rfl,
    show ([earthAfterFirst, moon] : List Object).getD 1 defaultObject = moon from rfl,
    show ([earthAfterFirst, moon] : List Object).getD 0 defaultObject = earthAfterFirst
      from rfl]
  have hds : distanceSim moon earthAfterFirst = 754811207 / 1966080000 := by
    rw [distanceSim_comm]
    exact distanceSim_earthAfterFirst_moon
  have hdr : distanceReal SPACE_SCALE moon earthAfterFirst = 2358785021875 / 6144 := by
    unfold distanceReal
    rw [hds]
    norm_num [SPACE_SCALE]
  unfold gravityFrom
  rw [if_neg (by rw [hdr]; norm_num [moon, earthAfterFirst])]
  unfold accelerate forceMag direction
  rw [hds, hdr]
  norm_num [moon, earthAfterFirst, moonAfterForce, G, TIME_SCALE]

theorem updatePosition_moon :
    updatePosition TIME_SCALE SPACE_SCALE moonAfterForce = moonAfterFirst := by
  unfold updatePosition moonAfterForce moonAfterFirst
  norm_num [TIME_SCALE, SPACE_SCALE]

theorem boundary_moonAfterFirst : boundary moonAfterFirst = moonAfterFirst := by
  unfold boundary boundaryY boundaryX moonAfterFirst
  norm_num

theorem tick_earth_moon :
    tick TIME_SCALE SPACE_SCALE [earth, moon] =
      [(CheckCollision moonAfterFirst earthAfterFirst).2,
       (CheckCollision moonAfterFirst earthAfterFirst).1] := by
  unfold tick
  rw [show List.range ([earth, moon] : List Object).length = [0, 1] from rfl,
    List.foldl_cons, List.foldl_cons, List.foldl_nil, earth_step]
  unfold processBody
  rw [forcePhase_moon, updatePosition_moon, boundary_moonAfterFirst,
    show ([earthAfterFirst, moon] : List Object).set 1 moonAfterFirst =
      [earthAfterFirst, moonAfterFirst] from rfl]
  unfold collisionLoop
  rw [show List.range ([earthAfterFirst, moonAfterFirst] : List Object).length = [0, 1]
      from rfl,
    List.foldl_cons, List.foldl_cons, List.foldl_nil, if_neg zero_ne_one, if_pos rfl]
  unfold collideAt
  rfl

/-- C1 counterexample: in the first tick of the Earth-Moon scenario the
Moon's position is NOT advanced with its pre-acceleration velocity: the
x-position it would get from `updatePosition()` on the initial velocity
(which has zero x-component, leaving x at 0.384) differs from the
x-position the tick actually produces, because the force loop has already
changed the velocity when `updatePosition()` runs. -/
theorem moon_position_not_preaccel_velocity :
    ((tick TIME_SCALE SPACE_SCALE [earth, moon]).getD 1 defaultObject).position.1 ≠
      (updatePosition TIME_SCALE SPACE_SCALE moon).position.1 := by
  rw [tick_earth_moon,
    show ([(CheckCollision moonAfterFirst earthAfterFirst).2,
           (CheckCollision moonAfterFirst earthAfterFirst).1].getD 1 defaultObject) =
      (CheckCollision moonAfterFirst earthAfterFirst).1 from rfl,
    CheckCollision_fst_position]
  unfold updatePosition
  norm_num [moonAfterFirst, moon, TIME_SCALE, SPACE_SCALE]

/-- C1 amended: in the first tick of the Earth-Moon scenario the Moon's
position is advanced by `updatePosition()` using the velocity as it is
AFTER that tick's gravitational acceleration has been applied (the phase
order per body is force accumulation, then integration, then boundary
clamp, then collision response, so integration sees the updated
velocity, which differs from the pre-tick one). -/
theorem moon_position_uses_postaccel_velocity :
    (forcePhase TIME_SCALE SPACE_SCALE
        (processBody TIME_SCALE SPACE_SCALE [earth, moon] 0) 1).velocity.1 ≠
      moon.velocity.1 ∧
    ((tick TIME_SCALE SPACE_SCALE [earth, moon]).getD 1 defaultObject).position.1 =
      moon.position.1 +
        (forcePhase TIME_SCALE SPACE_SCALE
          (processBody TIME_SCALE SPACE_SCALE [earth, moon] 0) 1).velocity.1 *
          TIME_SCALE * SPACE_SCALE ∧
    ((tick TIME_SCALE SPACE_SCALE [earth, moon]).getD 1 defaultObject).position.2 =
      moon.position.2 +
        (forcePhase TIME_SCALE SPACE_SCALE
          (processBody TIME_SCALE SPACE_SCALE [earth, moon] 0) 1).velocity.2 *
          TIME_SCALE * SPACE_SCALE := by
  rw [earth_step, forcePhase_moon, tick_earth_moon,
    show ([(CheckCollision moonAfterFirst earthAfterFirst).2,
           (CheckCollision moonAfterFirst earthAfterFirst).1].getD 1 defaultObject) =
      (CheckCollision moonAfterFirst earthAfterFirst).1 from rfl,
    CheckCollision_fst_position]
  norm_num [moonAfterForce, moonAfterFirst, moon, TIME_SCALE, SPACE_SCALE]

end PhysicsSim
